import Mathlib

/-!
Shallow embedding of the La Poste card-status client (`src/lib/api/client.ts`,
`src/lib/auth/auth-context.tsx`, `src/app/admin/_components/UpdateStatusDialog.tsx`).

JavaScript numbers that matter here are modelled as rationals (`ℚ`),
epoch times in milliseconds as integers (`ℤ`).  Header and JSON body
contents are modelled at the level of their parsed interpretation: a
header string that `Number(...)` accepts appears as its numeric value, a
string that `Date.parse` accepts appears as its epoch-milliseconds
value, and so on.
-/

namespace LaPoste

/-- The structured failure value of the client (`ApiClientError` in
`client.ts`): HTTP status, machine code, human message, optional
request-correlation id, optional retry-after seconds. -/
structure ApiError where
  status : Nat
  code : String
  message : String
  requestId : Option String
  retryAfterSeconds : Option Int
deriving Repr, DecidableEq

/-- Parsed interpretation of the string held by a `Retry-After` header:
`num q` when `Number(raw)` is not `NaN` (value `q`), otherwise `date t`
when `Date.parse(raw)` succeeds (epoch milliseconds `t`), otherwise
`malformed`. -/
inductive RetryAfterVal where
  | num (q : ℚ)
  | date (epochMs : ℤ)
  | malformed
deriving Repr, DecidableEq

/-- The two response headers read by `parseRetryAfterSeconds`.
`retryAfter = none` models an absent (or empty, hence falsy) header.
`rateLimitReset = some none` models a present header whose text does not
parse as a number (`Number(...)` is `NaN`); `some (some n)` a numeric
one. -/
structure RespHeaders where
  retryAfter : Option RetryAfterVal
  rateLimitReset : Option (Option ℚ)
deriving Repr, DecidableEq

/-- `Math.ceil (a / b)` for integer `a` and positive integer `b`:
the ceiling of the exact quotient, via floor division on the negation. -/
def jsCeilDiv (a b : ℤ) : ℤ := -((-a).fdiv b)

/-- `parseRetryAfterSeconds` (client.ts lines 146-167).  `nowMs` stands
for `Date.now()`.  `Math.ceil` on a JS number is `Int.ceil` on the
rational; `Math.max(0, _)` is `max 0 _`.  Since the epoch values
`asDate` and `Date.now()` are integral, `Math.ceil((asDate -
Date.now()) / 1000)` is `jsCeilDiv (t - nowMs) 1000` and
`Math.floor(Date.now() / 1000)` is `nowMs.fdiv 1000`. -/
def parseRetryAfterSeconds (h : RespHeaders) (nowMs : ℤ) : Option ℤ :=
  match h.retryAfter with
  | some (.num q) => some (max 0 ⌈q⌉)
  | some (.date t) => some (max 0 (jsCeilDiv (t - nowMs) 1000))
  | _ =>
    match h.rateLimitReset with
    | some (some n) =>
      let nowSeconds : ℤ := nowMs.fdiv 1000
      let delta : ℚ := if n > (nowSeconds : ℚ) + 5 then n - (nowSeconds : ℚ) else n
      some (max 0 ⌈delta⌉)
    | _ => none

/-- The value of the `error` key of a parsed JSON body, when that key is
present.  `null` models `{"error": null}` (reading `.code` on it throws
a `TypeError` in JS); `obj c m r` models an object value, each field
`none` when absent or JSON-null (both make `??` fire) and `some s` when
a string; `prim` models a non-null, non-object value (property access
yields `undefined`, so every `??` fires). -/
inductive ErrField where
  | null
  | obj (code message requestId : Option String)
  | prim
deriving Repr, DecidableEq

/-- Result of `parseJsonSafe` on the response, classified by the shape
tests of `request`: `absent` when `parseJsonSafe` returned `null` (no
JSON content type, a parse failure, or the JSON value `null`); `other`
when it returned a value that is not an object with an `error` key (a
primitive, an array, or an object without `error`); `withError e` when
it returned an object whose `error` key holds `e`. -/
inductive BodyVal where
  | absent
  | other
  | withError (e : ErrField)
deriving Repr, DecidableEq

/-- An HTTP response as `request` consumes it. -/
structure Resp where
  status : Nat
  statusText : String
  body : BodyVal
  headers : RespHeaders
deriving Repr, DecidableEq

/-- `res.ok`: status in the inclusive range 200-299. -/
def respOk (r : Resp) : Bool := 200 ≤ r.status && r.status ≤ 299

/-- How a call to `request` settles: it resolves (`success`, carrying
the parsed body), rejects with the structured `ApiClientError`
(`failure (.api e)`), or rejects with an unstructured JS error:
`typeError` for a property access on `null`/`undefined`, `network` for
a transport-level `fetch` rejection. -/
inductive JsFail where
  | api (e : ApiError)
  | typeError
  | network
deriving Repr, DecidableEq

inductive ReqResult (T : Type) where
  | success (v : T)
  | failure (f : JsFail)
deriving Repr, DecidableEq

/-- The response-classification half of `request` (client.ts lines
204-231), from the point where the `fetch` response `r` is available.
On `res.ok` the parsed body is returned (status 204 yields no value; we
keep the body, which is `absent` there).  On non-2xx, the JSON error
envelope is used when the body is an object with an `error` key whose
fields back the `??` fallbacks; `{"error": null}` makes the property
reads `err.code` / `err.message` throw a `TypeError`.  Without such a
body the error is synthesized from the status, where `statusText ||
...` falls back exactly when `statusText` is the empty string. -/
def handleResponse (r : Resp) (nowMs : ℤ) : ReqResult BodyVal :=
  if respOk r then
    .success r.body
  else
    let retryAfterSeconds := if r.status = 429 then parseRetryAfterSeconds r.headers nowMs else none
    match r.body with
    | .withError .null => .failure .typeError
    | .withError (.obj c m rid) =>
      .failure (.api
        { status := r.status
          code := c.getD ("HTTP_" ++ toString r.status)
          message := m.getD ("HTTP " ++ toString r.status)
          requestId := rid
          retryAfterSeconds := retryAfterSeconds })
    | .withError .prim =>
      .failure (.api
        { status := r.status
          code := "HTTP_" ++ toString r.status
          message := "HTTP " ++ toString r.status
          requestId := none
          retryAfterSeconds := retryAfterSeconds })
    | _ =>
      .failure (.api
        { status := r.status
          code := "HTTP_" ++ toString r.status
          message := if r.statusText = "" then "HTTP " ++ toString r.status else r.statusText
          requestId := none
          retryAfterSeconds := retryAfterSeconds })

/-!
## Refresh de-duplication (`refreshInFlight` / `refreshAccessToken`)

The module-level variable `refreshInFlight : Promise<string> | null`
(client.ts line 233) is a single-slot marker.  `refreshAccessToken`
checks it: when empty it issues one refresh network call, stores the
pending promise, and attaches a `finally` that resets the slot to
`null` once the promise settles (success or failure); when occupied it
returns the stored promise, so the caller awaits the same in-flight
call.  We model the slot together with counters of issued and settled
refresh network calls, driven by the two events the event loop can
deliver: a caller invoking `refreshAccessToken`, and the in-flight
promise settling (its `finally` running).
-/

/-- State of the refresh de-duplication logic: the slot holds the id of
the pending promise, if any; `started` counts refresh network calls
issued, `settled` counts those that have settled. -/
structure RefreshState where
  inFlight : Option Nat
  nextId : Nat
  started : Nat
  settled : Nat
deriving Repr, DecidableEq

/-- The two events that touch `refreshInFlight`: `need` is an
invocation of `refreshAccessToken` (a 401 needing a new credential);
`settle ok` is the in-flight refresh settling, successfully or not,
which runs the `finally` that clears the slot. -/
inductive RefreshEv where
  | need
  | settle (ok : Bool)
deriving Repr, DecidableEq

def refreshInit : RefreshState := ⟨none, 0, 0, 0⟩

/-- One step of the refresh logic.  An invocation with an occupied slot
joins the stored promise (no state change, no network call); with an
empty slot it issues one network call and fills the slot.  A settlement
clears the slot whatever `ok` was; a stray settlement with an empty
slot (impossible in valid runs) changes nothing. -/
def refreshStep (s : RefreshState) : RefreshEv → RefreshState
  | .need =>
    match s.inFlight with
    | some _ => s
    | none => ⟨some s.nextId, s.nextId + 1, s.started + 1, s.settled⟩
  | .settle _ =>
    match s.inFlight with
    | some _ => ⟨none, s.nextId, s.started, s.settled + 1⟩
    | none => s

def refreshRun (evs : List RefreshEv) : RefreshState :=
  evs.foldl refreshStep refreshInit

/-!
## Authenticated call wrapper (`adminRequest`)

`adminRequest` tries `request` with the supplied credential; if that
rejects with an `ApiClientError` of status 401 it awaits
`refreshAccessToken()`, invokes the `onAccessTokenRefreshed` callback
with the new credential, and retries `request` once with it, returning
that outcome.  Any other rejection is rethrown unchanged.  We model it
as a function of the outcomes of its sub-calls — the outcome of the
first `request`, the outcome of the refresh, and a map from credential
to the outcome of the retried `request` — returning the overall
outcome together with the ordered trace of external actions taken. -/

/-- Externally visible actions of one `adminRequest` execution. -/
inductive CallEv where
  | call (token : String)
  | refreshCall
  | callback (token : String)
deriving Repr, DecidableEq

/-- The guard `err instanceof ApiClientError && err.status === 401`
(negated form at client.ts line 258). -/
def is401 : JsFail → Bool
  | .api e => e.status == 401
  | _ => false

/-- `adminRequest` (client.ts lines 250-265) over the outcomes of its
sub-calls: `first` is what `request(path, {accessToken: token})`
settles to, `refreshOutcome` what `refreshAccessToken()` settles to,
and `retry tk` what the retried `request` with credential `tk` settles
to. -/
def adminRequest {T : Type} (token : String) (first : ReqResult T)
    (refreshOutcome : Except JsFail String) (retry : String → ReqResult T) :
    ReqResult T × List CallEv :=
  match first with
  | .success v => (.success v, [.call token])
  | .failure f =>
    if is401 f then
      match refreshOutcome with
      | .error rf => (.failure rf, [.call token, .refreshCall])
      | .ok nextToken =>
        (retry nextToken, [.call token, .refreshCall, .callback nextToken, .call nextToken])
    else
      (.failure f, [.call token])

/-- Number of `request` invocations in a trace. -/
def countCalls (evs : List CallEv) : Nat :=
  evs.countP fun e => match e with | .call _ => true | _ => false

/-- Number of `refreshAccessToken` invocations in a trace. -/
def countRefresh (evs : List CallEv) : Nat :=
  evs.countP fun e => match e with | .refreshCall => true | _ => false

/-!
## Session/token manager (`auth-context.tsx`)

A JWT credential is modelled by the result of `decodeJwtPayload` on its
raw string: `none` when the string has fewer than two dot-separated
segments or its payload segment is not base64url-encoded JSON, and
`some p` when it decodes to the JSON object `p`, of which only the
three claims the client reads are kept.  JSON claim values are
classified by the `typeof` tests the code performs. -/

/-- A JSON claim value, as far as `tokenToAdminUser`'s `typeof` and
strict-equality tests can distinguish: a string, a number, a boolean,
JSON `null`, or a composite (object/array) value. -/
inductive JVal where
  | str (s : String)
  | num (q : ℚ)
  | boolean (b : Bool)
  | jnull
  | composite
deriving Repr, DecidableEq

/-- The decoded JWT payload object, restricted to the claims read by
`tokenToAdminUser`; `none` means the key is absent. -/
structure Payload where
  sub : Option JVal
  username : Option JVal
  role : Option JVal
deriving Repr, DecidableEq

/-- A raw credential string, abstracted to what `decodeJwtPayload`
yields on it: `none` models a string it cannot decode. -/
structure Jwt where
  decoded : Option Payload
deriving Repr, DecidableEq

/-- `AdminUser` (auth-context.tsx): `role` is the fixed marker, always
the string `ADMIN` here; `id` is a JS number. -/
structure AdminUser where
  id : ℚ
  username : String
  role : String
deriving Repr, DecidableEq

/-- Value of a digit list under left-to-right accumulation; `none` when
a non-digit occurs. -/
def decDigits (cs : List Char) : Option Nat :=
  cs.foldl (fun acc c => acc.bind fun n => if c.isDigit then some (n * 10 + (c.toNat - 48)) else none)
    (some 0)

/-- Whitespace trimming on both ends, as JS `String.prototype.trim`
(restricted to the ASCII whitespace classified by `Char.isWhitespace`). -/
def jsTrim (cs : List Char) : List Char :=
  ((cs.dropWhile Char.isWhitespace).reverse.dropWhile Char.isWhitespace).reverse

/-- `jsTrim` on a string. -/
def jsTrimStr (s : String) : String :=
  ⟨jsTrim s.data⟩

/-- `Number(s)` for a string `s`, returning `none` for `NaN`.  JS trims
whitespace and maps the empty remainder to `0`; otherwise we accept the
decimal literal forms `[+-]? digits`, `[+-]? digits . digits?` and
`[+-]? . digits`.  The exotic accepted forms (hexadecimal, exponent
notation, `Infinity`) are outside this model. -/
def jsNumber (s : String) : Option ℚ :=
  let t := jsTrim s.data
  if t = [] then some 0
  else
    let (sgn, rest) : ℤ × List Char :=
      match t with
      | '-' :: r => (-1, r)
      | '+' :: r => (1, r)
      | r => (1, r)
    let intPart := rest.takeWhile Char.isDigit
    let rest2 := rest.drop intPart.length
    match rest2 with
    | [] =>
      match intPart with
      | [] => none
      | _ => (decDigits intPart).map fun ip => ((sgn * (ip : ℤ) : ℤ) : ℚ)
    | '.' :: frac =>
      if frac.all Char.isDigit && !(intPart.isEmpty && frac.isEmpty) then
        (decDigits intPart).bind fun ip =>
          (decDigits frac).map fun fp =>
            (sgn : ℚ) * ((ip : ℚ) + (fp : ℚ) / ((10 : ℚ) ^ frac.length))
      else none
    | _ => none

/-- `tokenToAdminUser` (auth-context.tsx lines 377-390): reads `sub`,
`username` and `role` from the decoded payload; `sub` and `username`
must be strings (and, via JS string falsiness, non-empty), `role` must
be strictly equal to the string `ADMIN`, and `Number(sub)` must not be
`NaN`; otherwise the result is no identity, never an error. -/
def tokenToAdminUser (t : Jwt) : Option AdminUser :=
  match t.decoded with
  | none => none
  | some p =>
    let sub : Option String := match p.sub with | some (.str s) => some s | _ => none
    let username : Option String := match p.username with | some (.str s) => some s | _ => none
    let role : Option String := if p.role = some (.str "ADMIN") then some "ADMIN" else none
    match sub, username, role with
    | some s, some u, some ro =>
      if s = "" || u = "" then none
      else
        match jsNumber s with
        | none => none
        | some q => some ⟨q, u, ro⟩
    | _, _, _ => none

/-- `AuthStatus` (auth-context.tsx line 344). -/
inductive AuthStatus where
  | loading
  | authenticated
  | unauthenticated
deriving Repr, DecidableEq

/-- The provider's three state hooks. -/
structure AuthSt where
  status : AuthStatus
  accessToken : Option Jwt
  admin : Option AdminUser
deriving Repr, DecidableEq

/-- `setAccessToken` (auth-context.tsx lines 400-403): stores the
credential and re-derives (or clears) the identity. -/
def setAccessToken (s : AuthSt) (t : Option Jwt) : AuthSt :=
  { s with accessToken := t, admin := t.bind tokenToAdminUser }

/-- The provider transitions, at the granularity at which the handlers
update state: a `login` call resolving with a credential or rejecting;
the initial-session effect observing an in-memory credential, starting
a silent refresh, and that refresh resolving or rejecting; `logout`
completing (with the remote call's outcome, which is ignored); and the
exposed `setAccessToken` being invoked. -/
inductive AuthEv where
  | loginOk (t : Jwt)
  | loginFail
  | effectTokenPresent
  | effectStart
  | initRefreshOk (t : Jwt)
  | initRefreshFail
  | logoutDone (remoteOk : Bool)
  | setToken (t : Option Jwt)
deriving Repr, DecidableEq

/-- One provider transition (auth-context.tsx lines 405-451). -/
def authStep (s : AuthSt) : AuthEv → AuthSt
  | .loginOk t => { setAccessToken s (some t) with status := .authenticated }
  | .loginFail => s
  | .effectTokenPresent => if s.accessToken.isSome then { s with status := .authenticated } else s
  | .effectStart => if s.accessToken.isNone then { s with status := .loading } else s
  | .initRefreshOk t => { setAccessToken s (some t) with status := .authenticated }
  | .initRefreshFail => { setAccessToken s none with status := .unauthenticated }
  | .logoutDone _ => { setAccessToken s none with status := .unauthenticated }
  | .setToken t => setAccessToken s t

/-- Initial hook values (auth-context.tsx lines 396-398). -/
def authInit : AuthSt := ⟨.unauthenticated, none, none⟩

def authRun (evs : List AuthEv) : AuthSt :=
  evs.foldl authStep authInit

/-!
## Admin update dialog (`UpdateStatusDialog.tsx`)

The form's values are validated by the zod schema `updateSchema`
before `onSubmit` runs (`react-hook-form`'s `handleSubmit` never calls
`onSubmit` on a validation failure), and `onSubmit` then builds the
`PATCH` body and performs the network call. -/

/-- `CardRequestStatus` (client.ts line 64). -/
inductive CardRequestStatus where
  | CREATED
  | IN_PROGRESS
  | READY
  | DELIVERED
  | CANCELLED
deriving Repr, DecidableEq

/-- The form's status selection (`statusValues`, UpdateStatusDialog.tsx
line 32): the five statuses plus the `UNCHANGED` sentinel. -/
inductive FormStatus where
  | UNCHANGED
  | CREATED
  | IN_PROGRESS
  | READY
  | DELIVERED
  | CANCELLED
deriving Repr, DecidableEq

/-- The cast `values.status as CardRequestStatus` performed when the
selection is not `UNCHANGED`. -/
def FormStatus.toCard : FormStatus → Option CardRequestStatus
  | .UNCHANGED => none
  | .CREATED => some .CREATED
  | .IN_PROGRESS => some .IN_PROGRESS
  | .READY => some .READY
  | .DELIVERED => some .DELIVERED
  | .CANCELLED => some .CANCELLED

/-- `optionalTrimmed` (UpdateStatusDialog.tsx lines 25-30): `undefined`
and `null` preprocess to `undefined`; a string is trimmed and the empty
trim result becomes `undefined`; the survivor must satisfy
`z.string().max(255)`.  `Except` failure is a zod validation error.
(The `String(v)` coercion of non-string inputs cannot occur for this
form, whose fields are text areas.) -/
def optionalTrimmed (v : Option String) : Except Unit (Option String) :=
  match v with
  | none => .ok none
  | some s =>
    let t := jsTrimStr s
    if t = "" then .ok none
    else if t.length ≤ 255 then .ok (some t) else .error ()

/-- The schema's output type (`UpdateValues`). -/
structure UpdateValues where
  status : FormStatus
  pickupEstablishment : Option String
  pickupAddress : Option String
deriving Repr, DecidableEq

/-- `updateSchema` (UpdateStatusDialog.tsx lines 34-43): both pickup
fields go through `optionalTrimmed`, then the `.refine` predicate
`v.status !== UNCHANGED || v.pickupEstablishment || v.pickupAddress`
must hold.  After preprocessing a pickup field is `undefined` or a
non-empty string, so its JS truthiness is `Option.isSome`. -/
def updateSchemaParse (status : FormStatus) (pe pa : Option String) :
    Except Unit UpdateValues :=
  match optionalTrimmed pe, optionalTrimmed pa with
  | .ok pe2, .ok pa2 =>
    if status ≠ .UNCHANGED ∨ pe2.isSome ∨ pa2.isSome then .ok ⟨status, pe2, pa2⟩
    else .error ()
  | _, _ => .error ()

/-- `AdminCardRequestUpdateBody` (client.ts lines 108-112). -/
structure AdminCardRequestUpdateBody where
  status : Option CardRequestStatus
  pickupEstablishment : Option String
  pickupAddress : Option String
deriving Repr, DecidableEq

/-- JS truthiness of an optional string field. -/
def strTruthy : Option String → Bool
  | some s => !(s == "")
  | none => false

/-- Body construction in `onSubmit` (UpdateStatusDialog.tsx lines
87-90): a field is included only when its value is truthy
(status additionally only when not `UNCHANGED`). -/
def buildBody (v : UpdateValues) : AdminCardRequestUpdateBody :=
  { status := v.status.toCard
    pickupEstablishment := if strTruthy v.pickupEstablishment then v.pickupEstablishment else none
    pickupAddress := if strTruthy v.pickupAddress then v.pickupAddress else none }

/-- The submission pipeline for one submit gesture: `handleSubmit`
validates against `updateSchema`; on failure `onSubmit` never runs and
no network call happens (`none`); on success `onSubmit` checks `item`
and the credential and, when both are present, issues the `PATCH` with
the built body (`some body`). -/
def submitUpdate (status : FormStatus) (pe pa : Option String)
    (hasItem hasToken : Bool) : Option AdminCardRequestUpdateBody :=
  match updateSchemaParse status pe pa with
  | .error _ => none
  | .ok v => if hasItem && hasToken then some (buildBody v) else none

/-- Invariant preserved by every refresh event: the number of issued
refresh calls equals the settled ones plus the in-flight one, if any —
so at most one refresh call is ever outstanding. -/
def RefreshInv (s : RefreshState) : Prop :=
  s.started = s.settled + (if s.inFlight.isSome then 1 else 0)

/-- `true` exactly on response bodies that are not an object with an
`error` key — the bodies the synthesized `HTTP_<status>` branch of
`request` handles. -/
def bodyLacksErrorKey : BodyVal → Bool
  | .absent => true
  | .other => true
  | .withError _ => false

/-- `true` exactly on outcomes that are a structured `ApiClientError`
failure. -/
def structuredFailure {T : Type} : ReqResult T → Bool
  | .failure (.api _) => true
  | _ => false

/-- The identity the provider holds is always the decoded form of the
credential it holds. -/
def AdminInv (s : AuthSt) : Prop :=
  s.admin = s.accessToken.bind tokenToAdminUser

/-! ## Theorems -/

theorem refreshStep_inv {s : RefreshState} (h : RefreshInv s) (e : RefreshEv) :
    RefreshInv (refreshStep s e) := by
  cases e with
  | need =>
    cases hs : s.inFlight <;> simp [RefreshInv, refreshStep, hs] at h ⊢ <;> omega
  | settle ok =>
    cases hs : s.inFlight <;> simp [RefreshInv, refreshStep, hs] at h ⊢ <;> omega

theorem refreshRun_inv_aux (evs : List RefreshEv) :
    ∀ s : RefreshState, RefreshInv s → RefreshInv (evs.foldl refreshStep s) := by
  induction evs with
  | nil => intro s h; exact h
  | cons e rest ih => intro s h; exact ih _ (refreshStep_inv h e)

theorem refreshRun_inv (evs : List RefreshEv) : RefreshInv (refreshRun evs) :=
  refreshRun_inv_aux evs refreshInit (by simp [RefreshInv, refreshInit])

/-- C2: at most one refresh network call is ever outstanding: in every
reachable state of the `refreshInFlight` slot, the calls issued exceed
the calls settled by exactly the one in-flight call, if any; a caller
needing a refresh while one is in flight joins it (the state, hence the
stored promise and the call counter, is unchanged); settling clears the
slot whether it succeeded or failed; and from an empty slot the next
need issues a fresh network call. -/
theorem refresh_dedup_contract (evs : List RefreshEv) :
    ((refreshRun evs).started
      = (refreshRun evs).settled + (if (refreshRun evs).inFlight.isSome then 1 else 0))
    ∧ ((refreshRun evs).inFlight.isSome = true →
        refreshStep (refreshRun evs) .need = refreshRun evs)
    ∧ (∀ ok : Bool, (refreshStep (refreshRun evs) (.settle ok)).inFlight = none)
    ∧ ((refreshRun evs).inFlight = none →
        (refreshStep (refreshRun evs) .need).started = (refreshRun evs).started + 1) := by
  refine ⟨refreshRun_inv evs, ?_, ?_, ?_⟩
  · intro h
    rcases hs : (refreshRun evs).inFlight with _ | p
    · rw [hs] at h; simp at h
    · simp [refreshStep, hs]
  · intro ok
    rcases hs : (refreshRun evs).inFlight with _ | p <;> simp [refreshStep, hs]
  · intro h
    simp [refreshStep, h]

/-- Witness for C2 on the concrete trace of two concurrent needs, a
settlement, and a later need. -/
theorem refresh_dedup_contract_witness :
    (refreshRun [.need, .need]).inFlight.isSome = true
    ∧ refreshStep (refreshRun [.need, .need]) .need = refreshRun [.need, .need]
    ∧ (refreshStep (refreshRun [.need, .need]) (.settle false)).inFlight = none
    ∧ (refreshRun [.need, .need]).started = 1 :=
  ⟨by decide, (refresh_dedup_contract [.need, .need]).2.1 (by decide),
    (refresh_dedup_contract [.need, .need]).2.2.1 false, by decide⟩

/-- C1: on a first failure with HTTP 401 the wrapper performs exactly
one refresh-then-retry — the trace is the first call, one refresh, one
callback invocation with the new credential, and one retried call whose
outcome (success or failure, whatever it is) is returned; any other
failure is propagated with no refresh and no retry; and in every case
at most one refresh and at most two calls occur. -/
theorem adminRequest_retry_contract {T : Type} (token tk : String) (f : JsFail)
    (ro : Except JsFail String) (retry : String → ReqResult T) :
    (is401 f = true →
      adminRequest token (.failure f) (.ok tk) retry
        = (retry tk, [.call token, .refreshCall, .callback tk, .call tk]))
    ∧ (is401 f = false →
      adminRequest token (.failure f) ro retry = (.failure f, [.call token]))
    ∧ (∀ first : ReqResult T,
        countRefresh (adminRequest token first ro retry).2 ≤ 1
        ∧ countCalls (adminRequest token first ro retry).2 ≤ 2) := by
  refine ⟨fun h => by simp [adminRequest, h], fun h => by simp [adminRequest, h], ?_⟩
  intro first
  rcases first with v | g
  · simp [adminRequest, countRefresh, countCalls]
  · by_cases h : is401 g = true
    · rcases ro with rf | nt <;> simp [adminRequest, h, countRefresh, countCalls]
    · simp at h; simp [adminRequest, h, countRefresh, countCalls]

/-- Witness for C1: a 401 first failure with a successful refresh is
retried once with the new credential and returns the retry outcome. -/
theorem adminRequest_retry_contract_witness :
    is401 (.api ⟨401, "HTTP_401", "Unauthorized", none, none⟩) = true
    ∧ adminRequest "t0" (.failure (.api ⟨401, "HTTP_401", "Unauthorized", none, none⟩))
        (.ok "t1") (fun _ => ReqResult.success BodyVal.absent)
      = (.success BodyVal.absent, [.call "t0", .refreshCall, .callback "t1", .call "t1"]) :=
  ⟨by decide,
    (adminRequest_retry_contract "t0" "t1" (.api ⟨401, "HTTP_401", "Unauthorized", none, none⟩)
      (.ok "t1") (fun _ => ReqResult.success BodyVal.absent)).1 (by decide)⟩

/-- C10: when the first call fails with 401 and the refresh itself
fails, the original call is not retried (the trace stops at the refresh)
and the refresh failure, not the original 401 error, is what
propagates. -/
theorem adminRequest_refresh_failure_propagates {T : Type} (token : String) (f rf : JsFail)
    (retry : String → ReqResult T) (h : is401 f = true) :
    adminRequest token (.failure f) (.error rf) retry
      = (.failure rf, [.call token, .refreshCall]) := by
  simp [adminRequest, h]

/-- Witness for C10: a failing refresh after a 401 propagates the
refresh failure with no retried call. -/
theorem adminRequest_refresh_failure_propagates_witness :
    is401 (.api ⟨401, "E401", "expired", none, none⟩) = true
    ∧ adminRequest "t0" (.failure (.api ⟨401, "E401", "expired", none, none⟩))
        (.error .network) (fun _ => ReqResult.success BodyVal.absent)
      = (.failure .network, [.call "t0", .refreshCall]) :=
  ⟨by decide,
    adminRequest_refresh_failure_propagates "t0" (.api ⟨401, "E401", "expired", none, none⟩)
      .network (fun _ => ReqResult.success BodyVal.absent) (by decide)⟩

/-- C3 counterexample: a `Retry-After` header holding the numeric value
`-1` yields the hint `0`, not `-1` as the claim ("the result is n")
requires — the code applies `Math.max(0, Math.ceil(n))` to the numeric
case as well. -/
theorem retryAfter_numeric_counterexample :
    parseRetryAfterSeconds ⟨some (.num (-1)), none⟩ 0 = some 0
    ∧ (some (0 : ℤ) ≠ some (-1 : ℤ)) :=
  ⟨by decide, by decide⟩

/-- C3 (amended): on 429, a numeric `Retry-After` value `n` yields
`max 0 ⌈n⌉` — equal to `n` for every non-negative integral `n`, so
`Retry-After: 30` yields `30`; an HTTP-date value yields the seconds
delta from the current time rounded up and floored at `0` (a date 10
seconds in the future yields exactly `10`); otherwise a numeric
rate-limit-reset value `n` yields `n - now` (epoch seconds) when `n`
exceeds now plus 5 seconds and `n` itself otherwise, rounded up and
floored at `0`; with neither header usable the hint is absent. -/
theorem retryAfter_hint_spec (q n : ℚ) (t nowMs : ℤ) (rl : Option (Option ℚ)) :
    (parseRetryAfterSeconds ⟨some (.num q), rl⟩ nowMs = some (max 0 ⌈q⌉))
    ∧ (∀ k : ℤ, 0 ≤ k →
        parseRetryAfterSeconds ⟨some (.num (k : ℚ)), rl⟩ nowMs = some k)
    ∧ (parseRetryAfterSeconds ⟨some (.date t), rl⟩ nowMs
        = some (max 0 (jsCeilDiv (t - nowMs) 1000)))
    ∧ (parseRetryAfterSeconds ⟨some (.date (nowMs + 10000)), rl⟩ nowMs = some 10)
    ∧ (n > ((nowMs.fdiv 1000 : ℤ) : ℚ) + 5 →
        parseRetryAfterSeconds ⟨none, some (some n)⟩ nowMs
          = some (max 0 ⌈n - ((nowMs.fdiv 1000 : ℤ) : ℚ)⌉))
    ∧ (¬ n > ((nowMs.fdiv 1000 : ℤ) : ℚ) + 5 →
        parseRetryAfterSeconds ⟨none, some (some n)⟩ nowMs = some (max 0 ⌈n⌉))
    ∧ (parseRetryAfterSeconds ⟨none, none⟩ nowMs = none)
    ∧ (parseRetryAfterSeconds ⟨some .malformed, none⟩ nowMs = none) := by
  refine ⟨rfl, ?_, rfl, ?_, ?_, ?_, rfl, rfl⟩
  · intro k hk
    have hceil : ⌈((k : ℤ) : ℚ)⌉ = k := Int.ceil_intCast k
    simp [parseRetryAfterSeconds, hceil, max_eq_right hk]
  · have harg : nowMs + 10000 - nowMs = 10000 := by omega
    simp [parseRetryAfterSeconds, harg, jsCeilDiv]
  · intro h
    simp [parseRetryAfterSeconds, h]
  · intro h
    simp [parseRetryAfterSeconds, h]

/-- Witness for C3 at `Retry-After: 30` (numeric) with `now = 0`. -/
theorem retryAfter_hint_spec_witness :
    (0 : ℤ) ≤ 30
    ∧ parseRetryAfterSeconds ⟨some (.num ((30 : ℤ) : ℚ)), none⟩ 0 = some 30 :=
  ⟨by decide, ((retryAfter_hint_spec 0 0 0 0 none).2.1) 30 (by decide)⟩

/-- C4 counterexample: a 404 with an empty status text (as under
HTTP/2, where `statusText` is always empty) and no JSON body produces
the message `HTTP 404`, not the response's (empty) status text — the
code reads `res.statusText || "HTTP <status>"`. -/
theorem synthesized_message_counterexample :
    handleResponse ⟨404, "", .absent, ⟨none, none⟩⟩ 0
      = .failure (.api ⟨404, "HTTP_404", "HTTP 404", none, none⟩)
    ∧ ("HTTP 404" ≠ "") :=
  ⟨by decide, by decide⟩

/-- C4 (amended): for every non-2xx response whose parsed body is not
an object with an `error` key, the Error Value's code is the string
`HTTP_` followed by the numeric status, and its message is the
response's status text when that is non-empty, else `HTTP <status>`. -/
theorem synthesized_error_spec (r : Resp) (nowMs : ℤ)
    (hok : respOk r = false) (hb : bodyLacksErrorKey r.body = true) :
    ∃ e : ApiError, handleResponse r nowMs = .failure (.api e)
      ∧ e.status = r.status
      ∧ e.code = "HTTP_" ++ toString r.status
      ∧ e.message
          = (if r.statusText = "" then "HTTP " ++ toString r.status else r.statusText) := by
  cases hbody : r.body with
  | withError e => rw [hbody] at hb; simp [bodyLacksErrorKey] at hb
  | absent =>
    refine ⟨⟨r.status, "HTTP_" ++ toString r.status,
      if r.statusText = "" then "HTTP " ++ toString r.status else r.statusText, none,
      if r.status = 429 then parseRetryAfterSeconds r.headers nowMs else none⟩,
      ?_, rfl, rfl, rfl⟩
    simp [handleResponse, hok, hbody]
  | other =>
    refine ⟨⟨r.status, "HTTP_" ++ toString r.status,
      if r.statusText = "" then "HTTP " ++ toString r.status else r.statusText, none,
      if r.status = 429 then parseRetryAfterSeconds r.headers nowMs else none⟩,
      ?_, rfl, rfl, rfl⟩
    simp [handleResponse, hok, hbody]

/-- Witness for C4 (amended) at a 503 with a non-empty status text. -/
theorem synthesized_error_spec_witness :
    respOk ⟨503, "Service Unavailable", .absent, ⟨none, none⟩⟩ = false
    ∧ bodyLacksErrorKey (Resp.body ⟨503, "Service Unavailable", .absent, ⟨none, none⟩⟩) = true
    ∧ ∃ e : ApiError,
        handleResponse ⟨503, "Service Unavailable", .absent, ⟨none, none⟩⟩ 0 = .failure (.api e)
        ∧ e.status = 503
        ∧ e.code = "HTTP_" ++ toString 503
        ∧ e.message = (if "Service Unavailable" = "" then "HTTP " ++ toString 503
            else "Service Unavailable") :=
  ⟨by decide, by decide,
    synthesized_error_spec ⟨503, "Service Unavailable", .absent, ⟨none, none⟩⟩ 0
      (by decide) (by decide)⟩

/-- C6 counterexample: a 500 whose JSON body is `{"error": null}` makes
`request` read `.code` off `null` and reject with an unstructured
`TypeError`, not a structured Error Value — the `'error' in parsed`
test passes but the subsequent property accesses throw. -/
theorem error_envelope_null_counterexample :
    respOk ⟨500, "Internal Server Error", .withError .null, ⟨none, none⟩⟩ = false
    ∧ handleResponse ⟨500, "Internal Server Error", .withError .null, ⟨none, none⟩⟩ 0
        = .failure .typeError
    ∧ structuredFailure
        (handleResponse ⟨500, "Internal Server Error", .withError .null, ⟨none, none⟩⟩ 0)
        = false :=
  ⟨by decide, by decide, by decide⟩

/-- C6 (amended): a non-2xx response never resolves successfully, and
fails with a structured Error Value carrying the response's status in
every case except the degenerate body that is an object whose `error`
key is JSON `null`, where the primitive faults with an unstructured
`TypeError` instead. -/
theorem non2xx_structured_spec (r : Resp) (nowMs : ℤ) (hok : respOk r = false) :
    (∀ b : BodyVal, handleResponse r nowMs ≠ .success b)
    ∧ (r.body ≠ .withError .null →
        ∃ e : ApiError, handleResponse r nowMs = .failure (.api e) ∧ e.status = r.status) := by
  constructor
  · intro b hcontra
    rcases hbody : r.body with _ | _ | ef
    · rw [handleResponse, if_neg (by simp [hok]), hbody] at hcontra; exact absurd hcontra (by simp)
    · rw [handleResponse, if_neg (by simp [hok]), hbody] at hcontra; exact absurd hcontra (by simp)
    · rcases ef with _ | ⟨c, m, rid⟩ | _ <;>
        (rw [handleResponse, if_neg (by simp [hok]), hbody] at hcontra;
          exact absurd hcontra (by simp))
  · intro hnull
    rcases hbody : r.body with _ | _ | ef
    · exact ⟨⟨r.status, "HTTP_" ++ toString r.status,
        if r.statusText = "" then "HTTP " ++ toString r.status else r.statusText, none,
        if r.status = 429 then parseRetryAfterSeconds r.headers nowMs else none⟩,
        by simp [handleResponse, hok, hbody], rfl⟩
    · exact ⟨⟨r.status, "HTTP_" ++ toString r.status,
        if r.statusText = "" then "HTTP " ++ toString r.status else r.statusText, none,
        if r.status = 429 then parseRetryAfterSeconds r.headers nowMs else none⟩,
        by simp [handleResponse, hok, hbody], rfl⟩
    · rcases ef with _ | ⟨c, m, rid⟩ | _
      · exact absurd hbody hnull
      · exact ⟨⟨r.status, c.getD ("HTTP_" ++ toString r.status),
          m.getD ("HTTP " ++ toString r.status), rid,
          if r.status = 429 then parseRetryAfterSeconds r.headers nowMs else none⟩,
          by simp [handleResponse, hok, hbody], rfl⟩
      · exact ⟨⟨r.status, "HTTP_" ++ toString r.status, "HTTP " ++ toString r.status, none,
          if r.status = 429 then parseRetryAfterSeconds r.headers nowMs else none⟩,
          by simp [handleResponse, hok, hbody], rfl⟩

/-- Witness for C6 (amended) at a bare 502. -/
theorem non2xx_structured_spec_witness :
    respOk ⟨502, "Bad Gateway", .other, ⟨none, none⟩⟩ = false
    ∧ (∀ b : BodyVal, handleResponse ⟨502, "Bad Gateway", .other, ⟨none, none⟩⟩ 0 ≠ .success b)
    ∧ (Resp.body ⟨502, "Bad Gateway", .other, ⟨none, none⟩⟩ ≠ .withError .null →
        ∃ e : ApiError,
          handleResponse ⟨502, "Bad Gateway", .other, ⟨none, none⟩⟩ 0 = .failure (.api e)
          ∧ e.status = 502) :=
  ⟨by decide,
    (non2xx_structured_spec ⟨502, "Bad Gateway", .other, ⟨none, none⟩⟩ 0 (by decide)).1,
    fun _ => (non2xx_structured_spec ⟨502, "Bad Gateway", .other, ⟨none, none⟩⟩ 0 (by decide)).2
      (by decide)⟩

/-- C7: a non-2xx response whose body is a well-formed error envelope
`{ error: { code, message, requestId } }` produces an Error Value whose
code, message and requestId are exactly the envelope's fields. -/
theorem envelope_passthrough_spec (r : Resp) (nowMs : ℤ) (c m rid : String)
    (hok : respOk r = false)
    (hb : r.body = .withError (.obj (some c) (some m) (some rid))) :
    ∃ e : ApiError, handleResponse r nowMs = .failure (.api e)
      ∧ e.code = c ∧ e.message = m ∧ e.requestId = some rid ∧ e.status = r.status := by
  refine ⟨⟨r.status, c, m, some rid,
    if r.status = 429 then parseRetryAfterSeconds r.headers nowMs else none⟩,
    ?_, rfl, rfl, rfl, rfl⟩
  simp [handleResponse, hok, hb]

/-- Witness for C7 at a 409 carrying a full envelope. -/
theorem envelope_passthrough_spec_witness :
    respOk ⟨409, "Conflict", .withError (.obj (some "DUP") (some "already exists") (some "r-9")),
        ⟨none, none⟩⟩ = false
    ∧ ∃ e : ApiError,
        handleResponse
            ⟨409, "Conflict", .withError (.obj (some "DUP") (some "already exists") (some "r-9")),
              ⟨none, none⟩⟩ 0
          = .failure (.api e)
        ∧ e.code = "DUP" ∧ e.message = "already exists" ∧ e.requestId = some "r-9"
        ∧ e.status = 409 :=
  ⟨by decide,
    envelope_passthrough_spec
      ⟨409, "Conflict", .withError (.obj (some "DUP") (some "already exists") (some "r-9")),
        ⟨none, none⟩⟩ 0 "DUP" "already exists" "r-9" (by decide) rfl⟩

theorem authStep_admin_inv {s : AuthSt} (h : AdminInv s) (e : AuthEv) :
    AdminInv (authStep s e) := by
  cases e with
  | loginOk t => simp [AdminInv, authStep, setAccessToken]
  | loginFail => exact h
  | effectTokenPresent =>
    cases hs : s.accessToken.isSome <;> simp [AdminInv, authStep, hs] <;> exact h
  | effectStart =>
    cases hs : s.accessToken.isNone <;> simp [AdminInv, authStep, hs] <;> exact h
  | initRefreshOk t => simp [AdminInv, authStep, setAccessToken]
  | initRefreshFail => simp [AdminInv, authStep, setAccessToken]
  | logoutDone b => simp [AdminInv, authStep, setAccessToken]
  | setToken t => simp [AdminInv, authStep, setAccessToken]

theorem authRun_inv_aux (evs : List AuthEv) :
    ∀ s : AuthSt, AdminInv s → AdminInv (evs.foldl authStep s) := by
  induction evs with
  | nil => intro s h; exact h
  | cons e rest ih => intro s h; exact ih _ (authStep_admin_inv h e)

theorem authRun_inv (evs : List AuthEv) : AdminInv (authRun evs) :=
  authRun_inv_aux evs authInit (by simp [AdminInv, authInit])

theorem tokenToAdminUser_sub_none (p : Payload) (h : p.sub = none) :
    tokenToAdminUser ⟨some p⟩ = none := by
  simp [tokenToAdminUser, h]

theorem tokenToAdminUser_username_none (p : Payload) (h : p.username = none) :
    tokenToAdminUser ⟨some p⟩ = none := by
  rcases hsub : p.sub with _ | jv
  · simp [tokenToAdminUser, hsub]
  · cases jv <;> simp [tokenToAdminUser, hsub, h]

theorem tokenToAdminUser_role_bad (p : Payload) (h : p.role ≠ some (.str "ADMIN")) :
    tokenToAdminUser ⟨some p⟩ = none := by
  rcases hsub : p.sub with _ | jv
  · simp [tokenToAdminUser, hsub]
  · rcases husr : p.username with _ | jw
    · cases jv <;> simp [tokenToAdminUser, hsub, husr]
    · cases jv <;> cases jw <;> simp [tokenToAdminUser, hsub, husr, h]

theorem tokenToAdminUser_sub_nan (p : Payload) (s : String)
    (hsub : p.sub = some (.str s)) (hn : jsNumber s = none) :
    tokenToAdminUser ⟨some p⟩ = none := by
  rcases husr : p.username with _ | jw
  · simp [tokenToAdminUser, hsub, husr]
  · by_cases hrole : p.role = some (.str "ADMIN") <;>
      cases jw <;> simp [tokenToAdminUser, hsub, husr, hrole, hn, ite_self]

/-- C5 counterexample: `login` resolving with a credential whose
payload cannot be decoded leaves the provider in a reachable state that
is `authenticated` with no identity, so the claimed "identity present
iff state authenticated" fails in the only-if-authenticated
direction. -/
theorem identity_iff_counterexample :
    (authRun [.loginOk ⟨none⟩]).status = .authenticated
    ∧ (authRun [.loginOk ⟨none⟩]).admin = none :=
  ⟨by decide, by decide⟩

/-- C5 (amended): at every reachable state of the auth provider the
identity equals the decoded admin identity of the current credential
(absent whenever the credential is absent); successful login and silent
refresh leave the state `authenticated` with the identity derived from
the credential's payload; and a credential whose payload cannot be
decoded, or lacks `sub` / `username` / the exact role marker `ADMIN`,
or whose `sub` does not convert to a number, yields no identity rather
than an error. -/
theorem session_identity_spec (evs : List AuthEv) (t : Jwt) :
    ((authRun evs).admin = (authRun evs).accessToken.bind tokenToAdminUser)
    ∧ ((authStep (authRun evs) (.loginOk t)).status = .authenticated)
    ∧ ((authStep (authRun evs) (.loginOk t)).admin = tokenToAdminUser t)
    ∧ ((authStep (authRun evs) (.initRefreshOk t)).status = .authenticated)
    ∧ ((authStep (authRun evs) (.initRefreshOk t)).admin = tokenToAdminUser t)
    ∧ (t.decoded = none → tokenToAdminUser t = none)
    ∧ (∀ p : Payload, p.sub = none → tokenToAdminUser ⟨some p⟩ = none)
    ∧ (∀ p : Payload, p.username = none → tokenToAdminUser ⟨some p⟩ = none)
    ∧ (∀ p : Payload, p.role ≠ some (.str "ADMIN") → tokenToAdminUser ⟨some p⟩ = none)
    ∧ (∀ (p : Payload) (s : String), p.sub = some (.str s) → jsNumber s = none →
        tokenToAdminUser ⟨some p⟩ = none) := by
  refine ⟨authRun_inv evs, ?_, ?_, ?_, ?_, ?_,
    tokenToAdminUser_sub_none, tokenToAdminUser_username_none,
    tokenToAdminUser_role_bad, tokenToAdminUser_sub_nan⟩
  · simp [authStep]
  · simp [authStep, setAccessToken]
  · simp [authStep]
  · simp [authStep, setAccessToken]
  · intro h; simp [tokenToAdminUser, h]

/-- Witness for C5 (amended) on a concrete trace: a successful login
with a well-formed credential, and the no-identity outcomes for an
undecodable payload and a non-numeric `sub`. -/
theorem session_identity_spec_witness :
    ((authRun [.effectStart, .initRefreshFail]).admin
      = (authRun [.effectStart, .initRefreshFail]).accessToken.bind tokenToAdminUser)
    ∧ ((authStep (authRun [.effectStart, .initRefreshFail])
        (.loginOk ⟨some ⟨some (.str "7"), some (.str "root"), some (.str "ADMIN")⟩⟩)).status
          = .authenticated)
    ∧ (Jwt.decoded ⟨none⟩ = none → tokenToAdminUser ⟨none⟩ = none)
    ∧ (Payload.sub ⟨some (.str "x"), some (.str "root"), some (.str "ADMIN")⟩
        = some (.str "x") → jsNumber "x" = none →
        tokenToAdminUser ⟨some ⟨some (.str "x"), some (.str "root"), some (.str "ADMIN")⟩⟩
          = none) :=
  ⟨(session_identity_spec [.effectStart, .initRefreshFail] ⟨none⟩).1,
    (session_identity_spec [.effectStart, .initRefreshFail]
      ⟨some ⟨some (.str "7"), some (.str "root"), some (.str "ADMIN")⟩⟩).2.1,
    fun h => (session_identity_spec [] ⟨none⟩).2.2.2.2.2.1 h,
    fun h hn => (session_identity_spec [] ⟨none⟩).2.2.2.2.2.2.2.2.2 _ "x" h hn⟩

theorem authStep_logout_const (s : AuthSt) (b : Bool) :
    authStep s (.logoutDone b) = authInit := by
  simp [authStep, setAccessToken, authInit]

/-- C8: after any `logout`, whether or not the remote logout call
succeeded, the credential is `null`, the identity is absent and the
state is `unauthenticated`; and logging out from the already
unauthenticated initial state (null credential) leaves it unchanged, so
logout is idempotent. -/
theorem logout_clears_spec (evs : List AuthEv) (b b2 : Bool) :
    ((authRun (evs ++ [.logoutDone b])).status = .unauthenticated)
    ∧ ((authRun (evs ++ [.logoutDone b])).accessToken = none)
    ∧ ((authRun (evs ++ [.logoutDone b])).admin = none)
    ∧ (∀ s : AuthSt,
        authStep (authStep s (.logoutDone b)) (.logoutDone b2) = authStep s (.logoutDone b))
    ∧ (authStep authInit (.logoutDone b) = authInit) := by
  have hrun : authRun (evs ++ [.logoutDone b]) = authInit := by
    simp [authRun, List.foldl_append, authStep_logout_const]
  refine ⟨?_, ?_, ?_, ?_, authStep_logout_const authInit b⟩
  · rw [hrun]; rfl
  · rw [hrun]; rfl
  · rw [hrun]; rfl
  · intro s; rw [authStep_logout_const s b, authStep_logout_const authInit b2]

/-- Witness for C8 after a successful login followed by a logout whose
remote call failed. -/
theorem logout_clears_spec_witness :
    ((authRun [.loginOk ⟨some ⟨some (.str "7"), some (.str "root"), some (.str "ADMIN")⟩⟩,
        .logoutDone false]).status = .unauthenticated)
    ∧ ((authRun [.loginOk ⟨some ⟨some (.str "7"), some (.str "root"), some (.str "ADMIN")⟩⟩,
        .logoutDone false]).accessToken = none)
    ∧ (authStep authInit (.logoutDone true) = authInit) :=
  ⟨(logout_clears_spec [.loginOk ⟨some ⟨some (.str "7"), some (.str "root"),
      some (.str "ADMIN")⟩⟩] false true).1,
    (logout_clears_spec [.loginOk ⟨some ⟨some (.str "7"), some (.str "root"),
      some (.str "ADMIN")⟩⟩] false true).2.1,
    (logout_clears_spec [] true true).2.2.2.2⟩

theorem optionalTrimmed_empty (v : Option String)
    (h : ∀ s, v = some s → jsTrimStr s = "") : optionalTrimmed v = .ok none := by
  cases v with
  | none => rfl
  | some s => simp [optionalTrimmed, h s rfl]

theorem optionalTrimmed_ok_truthy (v w : Option String)
    (h : optionalTrimmed v = .ok w) : strTruthy w = w.isSome := by
  cases v with
  | none =>
    simp only [optionalTrimmed] at h
    cases h
    rfl
  | some s =>
    simp only [optionalTrimmed] at h
    by_cases h1 : jsTrimStr s = ""
    · rw [if_pos h1] at h; cases h; rfl
    · rw [if_neg h1] at h
      by_cases h2 : (jsTrimStr s).length ≤ 255
      · rw [if_pos h2] at h; cases h
        simp [strTruthy, h1]
      · rw [if_neg h2] at h; cases h

theorem toCard_isSome (status : FormStatus) (h : status ≠ .UNCHANGED) :
    status.toCard.isSome = true := by
  cases status <;> simp [FormStatus.toCard] at h ⊢

/-- C9: a submission whose status selection is `UNCHANGED` and whose
pickup fields are both empty or whitespace-only is rejected by the
client-side schema and produces no network call; and whenever a network
call is made, its body changes at least one of status, pickup
establishment or pickup address. -/
theorem update_change_required (status : FormStatus) (pe pa : Option String) (hi ht : Bool) :
    (status = .UNCHANGED → (∀ s, pe = some s → jsTrimStr s = "") →
      (∀ s, pa = some s → jsTrimStr s = "") → submitUpdate status pe pa hi ht = none)
    ∧ (∀ b : AdminCardRequestUpdateBody, submitUpdate status pe pa hi ht = some b →
        b.status.isSome ∨ b.pickupEstablishment.isSome ∨ b.pickupAddress.isSome) := by
  constructor
  · intro hst hpe hpa
    subst hst
    simp [submitUpdate, updateSchemaParse, optionalTrimmed_empty pe hpe,
      optionalTrimmed_empty pa hpa]
  · intro b hb
    rcases hpe : optionalTrimmed pe with u | pe2
    · simp [submitUpdate, updateSchemaParse, hpe] at hb
    rcases hpa : optionalTrimmed pa with u | pa2
    · simp [submitUpdate, updateSchemaParse, hpe, hpa] at hb
    by_cases hcond : status ≠ FormStatus.UNCHANGED ∨ pe2.isSome = true ∨ pa2.isSome = true
    · have hparse : updateSchemaParse status pe pa = .ok ⟨status, pe2, pa2⟩ := by
        rw [updateSchemaParse, hpe, hpa]
        exact if_pos hcond
      rw [submitUpdate.eq_def, hparse] at hb
      by_cases hgate : (hi && ht) = true
      · simp only [hgate, if_true] at hb
        cases hb
        rcases hcond with hst | hpe2 | hpa2
        · exact Or.inl (toCard_isSome status hst)
        · refine Or.inr (Or.inl ?_)
          simp [buildBody, optionalTrimmed_ok_truthy pe pe2 hpe, hpe2]
        · refine Or.inr (Or.inr ?_)
          simp [buildBody, optionalTrimmed_ok_truthy pa pa2 hpa, hpa2]
      · simp [hgate] at hb
    · have hparse : updateSchemaParse status pe pa = .error () := by
        rw [updateSchemaParse, hpe, hpa]
        exact if_neg hcond
      rw [submitUpdate.eq_def, hparse] at hb
      cases hb

/-- Witness for C9: an unchanged status with a whitespace-only pickup
establishment and an absent pickup address makes no network call. -/
theorem update_change_required_witness :
    submitUpdate .UNCHANGED (some "   ") none true true = none :=
  (update_change_required .UNCHANGED (some "   ") none true true).1 rfl
    (fun s h => by cases h; decide) (fun s h => by cases h)

end LaPoste
